import Mathlib

/-!
Shallow embedding of the order-flow / trade-setup core of the
Trade_Flow_BybitAPI repository.

Sources embedded:
- `src/OrderF_HAFlags.py`  (class `OrderFlowTracker`: Heikin-Ashi transform,
  windowed buffer drain, order-flow metrics, setup-detector state machine,
  candle dispatcher);
- `src/trade_exhaust2.py`  (class `OrderFlowTracker`: CVD tracker variant).

Modelling conventions:
- Python floats are embedded as `ℚ` (full-precision field arithmetic); the
  source performs only `+ - * /`, comparisons, and decimal rounding on them.
- Python's `round(x, n)` (round-half-to-even of `x * 10^n`) is embedded as
  `pyRound`.
- A raw trade's volume field `t['v']` is a string parsed with `float(...)`
  only at drain time (line 153 of `OrderF_HAFlags.py`); it is embedded as
  `Option ℚ`, `none` standing for an unparsable numeric.  Timestamps and
  candle fields are embedded already parsed, since no claim hinges on their
  parse failure.
- Exceptions propagate out of `process_candle_data`; because the Python
  object keeps every mutation made before the raise, the embedding returns
  `Except σ (σ × ...)` where the `.error` payload is the state as mutated at
  the raise point.
-/

namespace TradeFlow

/-- `GREEN_ZONE_THRESHOLD = 0.55` from `OrderF_HAFlags.py` line 10. -/
def GREEN_ZONE_THRESHOLD : ℚ := 55/100

/-- `RED_ZONE_THRESHOLD = 0.35` from `OrderF_HAFlags.py` line 11. -/
def RED_ZONE_THRESHOLD : ℚ := 35/100

/-- `CONSOLIDATION_WATCH_PERIOD = 3` from `OrderF_HAFlags.py` line 12. -/
def CONSOLIDATION_WATCH_PERIOD : Int := 3

/-- `ALERT_COOLDOWN_PERIOD = 5` from `OrderF_HAFlags.py` line 13. -/
def ALERT_COOLDOWN_PERIOD : Int := 5

/-- Python `round` to an integer: round-half-to-even (banker's rounding). -/
def pyRoundInt (x : ℚ) : Int :=
  let f : Int := Int.floor x
  let r : ℚ := x - f
  if r < 1/2 then f
  else if 1/2 < r then f + 1
  else if f % 2 = 0 then f else f + 1

/-- Python `round(x, n)`: round-half-to-even at `n` decimal places. -/
def pyRound (x : ℚ) (n : Nat) : ℚ :=
  (pyRoundInt (x * 10 ^ n) : ℚ) / 10 ^ n

/-- A buffered trade event, as appended raw by `handle_trade_message`.
`T` is the millisecond timestamp, `S` the side string, `v` the volume field
(parsed only at drain; `none` = unparsable numeric). -/
structure Trade where
  T : Int
  S : String
  v : Option ℚ
deriving DecidableEq, Repr

/-- A buffered BBO entry, as appended (already parsed) by
`handle_bbo_message`: `{"ts": ..., "imbalance": ...}`. -/
structure BboEntry where
  ts : Int
  imbalance : ℚ
deriving DecidableEq, Repr

/-- A confirmed-candle payload (`kline` message data element). -/
structure Candle where
  start : Int
  endms : Int
  open_price : ℚ
  high_price : ℚ
  low_price : ℚ
  close_price : ℚ
  confirm : Bool
deriving DecidableEq, Repr

/-- The per-candle `output_data` dictionary built by
`OrderF_HAFlags.process_candle_data` (lines 160-169).  The `"utc"` entry, a
formatted timestamp string used only for log text, is not modelled. -/
structure CandleData where
  close_price : ℚ
  HA_open : ℚ
  HA_close : ℚ
  HA_color : String
  agg_ratio : ℚ
  avg_bbo_imba : ℚ
deriving DecidableEq, Repr

/-- Alert kinds emitted by `_run_trade_setup_logic`. -/
inductive AlertKind where
  | strictEntry
  | consolidationWatchEntry
deriving DecidableEq, Repr

/-- The mutable state of `OrderF_HAFlags.OrderFlowTracker` relevant to the
candle path (`__init__` lines 26-45).  The live order-book mirror
(`live_bids`/`live_asks`), never read by the candle path, is omitted. -/
structure TrackerState where
  trade_buffer : List Trade
  bbo_buffer : List BboEntry
  last_kline_start_time : Option Int
  last_ha_open : Option ℚ
  last_ha_close : Option ℚ
  ha_green_streak : Int
  consolidation_watch_countdown : Int
  alert_cooldown : Int
  last_candle_data : Option CandleData
deriving DecidableEq, Repr

/-- A fresh tracker (`__init__`): empty buffers, all counters zero. -/
def initialState : TrackerState :=
  { trade_buffer := []
    bbo_buffer := []
    last_kline_start_time := none
    last_ha_open := none
    last_ha_close := none
    ha_green_streak := 0
    consolidation_watch_countdown := 0
    alert_cooldown := 0
    last_candle_data := none }

/-- `OrderFlowTracker._check_entry_conditions` (lines 48-71).  The
price-agreement comparison at lines 67-69 is evaluated but its body is
`pass`, so it never affects the result; it reads `last_candle_data`, which
is therefore still a parameter here. -/
def check_entry_conditions (last_candle_data : Option CandleData)
    (current_data : CandleData) : Bool :=
  if current_data.HA_color ≠ "Green" then false
  else if current_data.agg_ratio < RED_ZONE_THRESHOLD ∨
      current_data.avg_bbo_imba < RED_ZONE_THRESHOLD then false
  else if current_data.agg_ratio < GREEN_ZONE_THRESHOLD ∧
      current_data.avg_bbo_imba < GREEN_ZONE_THRESHOLD then false
  else
    -- lines 67-69: `if last_candle_data and current.close_price < last.close_price: pass`
    true

/-- The three setup counters mutated by `_run_trade_setup_logic`. -/
structure SetupCounters where
  ha_green_streak : Int
  consolidation_watch_countdown : Int
  alert_cooldown : Int
deriving DecidableEq, Repr

/-- `OrderFlowTracker._run_trade_setup_logic` (lines 74-115), as a function
of the setup counters, the stored `last_candle_data`, and the current
candle's record; returns the updated counters and the alert fired (if any). -/
def run_trade_setup_logic (last_candle_data : Option CandleData)
    (s : SetupCounters) (current_data : CandleData) :
    SetupCounters × Option AlertKind :=
  -- lines 78-79: decrement cooldown timer
  let cooldown : Int :=
    if s.alert_cooldown > 0 then s.alert_cooldown - 1 else s.alert_cooldown
  -- lines 82-87: update Heiken Ashi streak
  let streak : Int :=
    if current_data.HA_color = "Green" then s.ha_green_streak + 1 else 0
  let watch : Int :=
    if current_data.HA_color = "Green" then s.consolidation_watch_countdown else 0
  -- lines 90-91: no checks while cooling down
  if cooldown > 0 then
    ({ ha_green_streak := streak, consolidation_watch_countdown := watch
       alert_cooldown := cooldown }, none)
  -- lines 94-103: strict 3+1 protocol
  else if streak = 4 then
    if check_entry_conditions last_candle_data current_data then
      ({ ha_green_streak := streak, consolidation_watch_countdown := 0
         alert_cooldown := ALERT_COOLDOWN_PERIOD }, some .strictEntry)
    else
      ({ ha_green_streak := streak
         consolidation_watch_countdown := CONSOLIDATION_WATCH_PERIOD
         alert_cooldown := cooldown }, none)
  -- lines 106-115: consolidation watch protocol
  else if watch > 0 then
    if check_entry_conditions last_candle_data current_data then
      ({ ha_green_streak := streak, consolidation_watch_countdown := 0
         alert_cooldown := ALERT_COOLDOWN_PERIOD }, some .consolidationWatchEntry)
    else
      ({ ha_green_streak := streak, consolidation_watch_countdown := watch - 1
         alert_cooldown := cooldown }, none)
  else
    ({ ha_green_streak := streak, consolidation_watch_countdown := watch
       alert_cooldown := cooldown }, none)

/-- The trade-buffer drain of `process_candle_data` (lines 146-148, and the
identical comprehensions at `trade_exhaust2.py` lines 72-75 and 124-127):
first component the relevant trades (`start ≤ T ≤ end`, both ends
inclusive), second component the new buffer (`T > end`). -/
def extractTrades (buf : List Trade) (candle_start_ms candle_end_ms : Int) :
    List Trade × List Trade :=
  (buf.filter (fun t => decide (candle_start_ms ≤ t.T ∧ t.T ≤ candle_end_ms)),
   buf.filter (fun t => decide (t.T > candle_end_ms)))

/-- The BBO-buffer drain of `process_candle_data` (lines 149-151). -/
def extractBbo (buf : List BboEntry) (candle_start_ms candle_end_ms : Int) :
    List BboEntry × List BboEntry :=
  (buf.filter (fun b => decide (candle_start_ms ≤ b.ts ∧ b.ts ≤ candle_end_ms)),
   buf.filter (fun b => decide (b.ts > candle_end_ms)))

/-- `statistics.mean` on a list of rationals. -/
def pymean (l : List ℚ) : ℚ := l.sum / l.length

/-- `OrderFlowTracker.process_candle_data` (lines 118-176).  The `.error`
payload is the tracker state as already mutated when the raise happens: the
only raise modelled is `float(t['v'])` on an unparsable buffered volume
(lines 153-154), which happens after the HA state update (139-140) and the
buffer drains (146-151).  Note `last_ha_close` is always set together with
`last_ha_open`, so the `getD 0` defaults are never the value used when
`last_ha_open` is not `none`. -/
def process_candle_data (s : TrackerState) (candle : Candle) :
    Except TrackerState (TrackerState × CandleData × Option AlertKind) :=
  let candle_start_ms := candle.start
  let candle_end_ms := candle.endms
  let open_price := candle.open_price
  let high_price := candle.high_price
  let low_price := candle.low_price
  let close_price := candle.close_price
  -- lines 129-136: Heiken Ashi full calculation
  let ha_close := (open_price + high_price + low_price + close_price) / 4
  let ha_open :=
    if s.last_ha_open = none then (open_price + close_price) / 2
    else (s.last_ha_open.getD 0 + s.last_ha_close.getD 0) / 2
  let ha_color : String := if ha_close > ha_open then "Green" else "Red"
  -- lines 139-140: update state for the next candle's calculation
  let s1 := { s with last_ha_open := some ha_open, last_ha_close := some ha_close }
  -- lines 146-151: drain buffers
  let tr := extractTrades s1.trade_buffer candle_start_ms candle_end_ms
  let relevant_trades := tr.1
  let s2 := { s1 with trade_buffer := tr.2 }
  let bb := extractBbo s2.bbo_buffer candle_start_ms candle_end_ms
  let relevant_bbo_updates := bb.1
  let s3 := { s2 with bbo_buffer := bb.2 }
  -- line 153: `sum(float(t['v']) for t in relevant_trades if t['S'] == 'Buy')`
  if (relevant_trades.filter (fun t => t.S == "Buy")).any (fun t => t.v = none) then
    .error s3
  -- line 154: same for the Sell side
  else if (relevant_trades.filter (fun t => t.S == "Sell")).any (fun t => t.v = none) then
    .error s3
  else
    let buy_volume :=
      ((relevant_trades.filter (fun t => t.S == "Buy")).map (fun t => t.v.getD 0)).sum
    let sell_volume :=
      ((relevant_trades.filter (fun t => t.S == "Sell")).map (fun t => t.v.getD 0)).sum
    let total_volume := buy_volume + sell_volume
    let agg_ratio := if total_volume > 0 then buy_volume / total_volume else 1/2
    let avg_bbo_imba :=
      if relevant_bbo_updates.isEmpty then 1/2
      else pymean (relevant_bbo_updates.map (fun b => b.imbalance))
    -- lines 160-169: the logged per-candle record (rounded at 4-5 places)
    let output_data : CandleData :=
      { close_price := close_price
        HA_open := pyRound ha_open 5
        HA_close := pyRound ha_close 5
        HA_color := ha_color
        agg_ratio := pyRound agg_ratio 4
        avg_bbo_imba := pyRound avg_bbo_imba 4 }
    -- line 173: run the setup detection logic on the logged record
    let counters : SetupCounters :=
      { ha_green_streak := s3.ha_green_streak
        consolidation_watch_countdown := s3.consolidation_watch_countdown
        alert_cooldown := s3.alert_cooldown }
    let ra := run_trade_setup_logic s3.last_candle_data counters output_data
    -- line 176: store data for the next candle's comparison
    let s4 := { s3 with
      ha_green_streak := ra.1.ha_green_streak
      consolidation_watch_countdown := ra.1.consolidation_watch_countdown
      alert_cooldown := ra.1.alert_cooldown
      last_candle_data := some output_data }
    .ok (s4, output_data, ra.2)

/-- A kline websocket message: its `"data"` list. -/
structure KlineMsg where
  data : List Candle
deriving DecidableEq, Repr

/-- `OrderFlowTracker.handle_kline_message` of `OrderF_HAFlags.py`
(lines 244-248).  `message.get("data", [])[0]` raises `IndexError` on an
empty list (`.error` with the state untouched); a confirmed candle whose
`start` differs from `last_kline_start_time` records that start and is
processed; anything else is a no-op. -/
def handle_kline_message (s : TrackerState) (message : KlineMsg) :
    Except TrackerState (TrackerState × Option (CandleData × Option AlertKind)) :=
  match message.data with
  | [] => .error s
  | candle :: _ =>
    if candle.confirm = true ∧ s.last_kline_start_time ≠ some candle.start then
      match process_candle_data { s with last_kline_start_time := some candle.start } candle with
      | .error e => .error e
      | .ok (s2, out, alert) => .ok (s2, some (out, alert))
    else .ok (s, none)

/-! ### `src/trade_exhaust2.py`: the CVD tracker variant -/

/-- The mutable state of `trade_exhaust2.OrderFlowTracker`
(`__init__` lines 12-23). -/
structure ExhaustState where
  trade_buffer : List Trade
  cumulative_volume_delta : ℚ
  cvd_history : List ℚ
  cvd_zscore_period : Nat
  last_kline_start_time : Option Int
deriving DecidableEq, Repr

/-- A fresh CVD tracker with history bound `n`
(default `cvd_zscore_period=100`). -/
def exhaustInitial (n : Nat) : ExhaustState :=
  { trade_buffer := []
    cumulative_volume_delta := 0
    cvd_history := []
    cvd_zscore_period := n
    last_kline_start_time := none }

/-- `collections.deque(maxlen=n).append`: append at the right, evicting from
the left once the length exceeds `n`. -/
def dequeAppend (n : Nat) (h : List ℚ) (x : ℚ) : List ℚ :=
  let h2 := h ++ [x]
  if h2.length > n then h2.drop (h2.length - n) else h2

/-- The sample variance used by `statistics.stdev` (its square): kept here
because the z-score itself takes a real square root.  The z-score value is
presentation-only (logged, never stored), so no state transition below
depends on it. -/
def sampleVariance (l : List ℚ) : ℚ :=
  let m := pymean l
  ((l.map (fun x => (x - m) * (x - m))).sum) / (l.length - 1 : ℤ)

/-- `trade_exhaust2.OrderFlowTracker.process_candle_data` (lines 58-127).
Returns the new state and the full-precision `volume_delta` of line 85 (the
value whose running sum the CVD is); the logged dictionary (lines 110-120)
presents these values rounded to 4 places together with a z-score (a real
square root, never stored).  The only raise modelled is `float(trade['v'])`
at line 78 on an unparsable buffered volume: it happens before the CVD
update (line 94) and before the buffer cleanup (lines 124-127), so the
`.error` payload is the state unchanged. -/
def exhaust_process_candle_data (s : ExhaustState) (candle : Candle) :
    Except ExhaustState (ExhaustState × ℚ) :=
  let candle_start_ms := candle.start
  let candle_end_ms := candle.endms
  -- lines 72-75: relevant trades (inclusive window)
  let relevant_trades := (extractTrades s.trade_buffer candle_start_ms candle_end_ms).1
  -- lines 77-82: `volume = float(trade['v'])` runs before the side test
  if relevant_trades.any (fun t => t.v = none) then
    .error s
  else
    let buy_volume :=
      ((relevant_trades.filter (fun t => t.S == "Buy")).map (fun t => t.v.getD 0)).sum
    let sell_volume :=
      ((relevant_trades.filter (fun t => t.S == "Sell")).map (fun t => t.v.getD 0)).sum
    -- line 85
    let volume_delta := buy_volume - sell_volume
    -- lines 93-95: update cumulative volume delta and its bounded history
    let cumulative := s.cumulative_volume_delta + volume_delta
    let history := dequeAppend s.cvd_zscore_period s.cvd_history cumulative
    -- lines 124-127: clean up the buffer
    let new_buffer := (extractTrades s.trade_buffer candle_start_ms candle_end_ms).2
    .ok ({ s with
      trade_buffer := new_buffer
      cumulative_volume_delta := cumulative
      cvd_history := history }, volume_delta)

/-- `trade_exhaust2.OrderFlowTracker.handle_kline_message` (lines 45-56):
an empty `"data"` list is a quiet no-op; a confirmed candle with a new
`start` is recorded and processed; anything else is a no-op. -/
def exhaust_handle_kline_message (s : ExhaustState) (message : KlineMsg) :
    Except ExhaustState (ExhaustState × Option ℚ) :=
  match message.data with
  | [] => .ok (s, none)
  | candle :: _ =>
    if candle.confirm = true ∧ s.last_kline_start_time ≠ some candle.start then
      match exhaust_process_candle_data
          { s with last_kline_start_time := some candle.start } candle with
      | .error e => .error e
      | .ok (s2, d) => .ok (s2, some d)
    else .ok (s, none)

/-! ### Sequences of setup-detector steps

The setup counters are mutated only by `_run_trade_setup_logic`, called once
per processed candle with that candle's logged record; `process_candle_data`
then stores the record as `last_candle_data`.  The following runs replay
that per-candle loop on the counters alone. -/

/-- The counters of a fresh tracker (`__init__` lines 42-44). -/
def initialCounters : SetupCounters :=
  { ha_green_streak := 0, consolidation_watch_countdown := 0, alert_cooldown := 0 }

/-- Alerts emitted along a sequence of per-candle records, threading the
counters and the `last_candle_data` slot exactly as the candle loop does. -/
def runSetupAlerts (last : Option CandleData) (s : SetupCounters) :
    List CandleData → List (Option AlertKind)
  | [] => []
  | d :: ds =>
    (run_trade_setup_logic last s d).2 ::
      runSetupAlerts (some d) (run_trade_setup_logic last s d).1 ds

/-- Counters after a sequence of per-candle records. -/
def runSetupCounters (last : Option CandleData) (s : SetupCounters) :
    List CandleData → SetupCounters
  | [] => s
  | d :: ds => runSetupCounters (some d) (run_trade_setup_logic last s d).1 ds

/-- CVD tracker replay: final state and, per successfully processed candle,
the pair of the full-precision `volume_delta` (line 85) and the
`cumulative_volume_delta` just after the line-94 update.  A raise stops the
run (the exception propagates out of the websocket callback). -/
def exhaustRun (s : ExhaustState) : List Candle → ExhaustState × List (ℚ × ℚ)
  | [] => (s, [])
  | c :: cs =>
    match exhaust_process_candle_data s c with
    | .error e => (e, [])
    | .ok (s2, d) =>
      ((exhaustRun s2 cs).1, (d, s2.cumulative_volume_delta) :: (exhaustRun s2 cs).2)

/-- Concrete per-candle record passing every entry condition (used by
concrete instantiations below). -/
def greenRecord : CandleData :=
  { close_price := 100, HA_open := 100, HA_close := 102, HA_color := "Green"
    agg_ratio := 6/10, avg_bbo_imba := 6/10 }

/-- Concrete per-candle record of a red candle. -/
def redRecord : CandleData :=
  { close_price := 100, HA_open := 100, HA_close := 99, HA_color := "Red"
    agg_ratio := 5/10, avg_bbo_imba := 5/10 }

/-- Concrete confirmed candle used by the closed instantiations below:
window `[0, 999]`, OHLC `100/108/100/100` (so, from fresh HA state,
`ha_open = 100`, `ha_close = 102`, color Green). -/
def sampleCandle : Candle :=
  { start := 0, endms := 999, open_price := 100, high_price := 108
    low_price := 100, close_price := 100, confirm := true }

/-- The per-candle record produced from a fresh tracker by `sampleCandle`
(empty window: both metrics default to `1/2`). -/
def sampleRecord : CandleData :=
  { close_price := 100, HA_open := 100, HA_close := 102
    HA_color := "Green", agg_ratio := 1/2, avg_bbo_imba := 1/2 }

/-- The tracker state after a fresh tracker processes `sampleCandle`. -/
def sampleOkState : TrackerState :=
  { trade_buffer := [], bbo_buffer := [], last_kline_start_time := none
    last_ha_open := some 100, last_ha_close := some 102
    ha_green_streak := 1, consolidation_watch_countdown := 0
    alert_cooldown := 0, last_candle_data := some sampleRecord }

/-!  ## Theorems -/

/-- The two HA color strings differ (used to evaluate the color tests). -/
theorem red_ne_green : ¬ ("Red" = "Green") := by decide

/-- The two HA color strings differ, other direction. -/
theorem green_ne_red : ¬ ("Green" = "Red") := by decide

/-- Side-string comparisons used to evaluate the buffer drains. -/
theorem sell_ne_buy : ¬ ("Sell" = "Buy") := by decide

/-- Side-string comparisons used to evaluate the buffer drains. -/
theorem buy_ne_sell : ¬ ("Buy" = "Sell") := by decide

/-- Boolean side-string comparisons used to evaluate the buffer drains. -/
theorem beq_sides : ("Sell" == "Buy") = false ∧ ("Buy" == "Sell") = false ∧
    ("Buy" == "Buy") = true ∧ ("Sell" == "Sell") = true := by decide

/-- C4: for every per-candle record, `_check_entry_conditions` returns true
iff the HA color is Green, both `agg_ratio` and `avg_bbo_imba` are at least
0.35, and at least one of them is at least 0.55; the price-agreement
comparison with the previous record never changes the result (the function
is constant in its `last_candle_data` argument). -/
theorem C4_entry_check_iff (last : Option CandleData) (d : CandleData) :
    (check_entry_conditions last d = true ↔
      (d.HA_color = "Green" ∧ 35/100 ≤ d.agg_ratio ∧ 35/100 ≤ d.avg_bbo_imba ∧
        (55/100 ≤ d.agg_ratio ∨ 55/100 ≤ d.avg_bbo_imba))) ∧
    (∀ last2 : Option CandleData,
      check_entry_conditions last2 d = check_entry_conditions last d) := by
  refine ⟨?_, fun last2 => rfl⟩
  simp only [check_entry_conditions, RED_ZONE_THRESHOLD, GREEN_ZONE_THRESHOLD]
  split_ifs with h1 h2 h3
  · simp only [Bool.false_eq_true, false_iff]
    rintro ⟨hg, -, -, -⟩
    exact h1 hg
  · simp only [Bool.false_eq_true, false_iff]
    rintro ⟨-, hr1, hr2, -⟩
    rcases h2 with h | h <;> linarith
  · simp only [Bool.false_eq_true, false_iff]
    rintro ⟨-, -, -, hg⟩
    rcases hg with h | h <;> linarith
  · simp only [ne_eq, not_not] at h1
    simp only [not_or, not_lt] at h2
    rw [not_and_or] at h3
    simp only [not_lt] at h3
    simp only [true_iff]
    exact ⟨h1, h2.1, h2.2, h3⟩

/-- C7: for both buffered event streams — trades (`extractTrades`) and BBO
updates (`extractBbo`) — the window extraction returns exactly the buffered
events with timestamp in `[start_ms, end_ms]` (inclusive both ends), the
post-extraction buffer is exactly the events with timestamp `> end_ms`,
events older than the window are dropped (neither returned nor retained),
and events newer than `end_ms` remain buffered. -/
theorem C7_window_extraction (buf : List Trade) (bbuf : List BboEntry)
    (start_ms end_ms : Int) :
    ((∀ t : Trade, t ∈ (extractTrades buf start_ms end_ms).1 ↔
        t ∈ buf ∧ start_ms ≤ t.T ∧ t.T ≤ end_ms) ∧
      (∀ t : Trade, t ∈ (extractTrades buf start_ms end_ms).2 ↔
        t ∈ buf ∧ end_ms < t.T) ∧
      (∀ t : Trade, t ∈ buf → t.T < start_ms → start_ms ≤ end_ms →
        t ∉ (extractTrades buf start_ms end_ms).1 ∧
          t ∉ (extractTrades buf start_ms end_ms).2) ∧
      (∀ t : Trade, start_ms ≤ t.T → t.T ≤ end_ms →
        t ∉ (extractTrades buf start_ms end_ms).2)) ∧
    ((∀ b : BboEntry, b ∈ (extractBbo bbuf start_ms end_ms).1 ↔
        b ∈ bbuf ∧ start_ms ≤ b.ts ∧ b.ts ≤ end_ms) ∧
      (∀ b : BboEntry, b ∈ (extractBbo bbuf start_ms end_ms).2 ↔
        b ∈ bbuf ∧ end_ms < b.ts) ∧
      (∀ b : BboEntry, b ∈ bbuf → b.ts < start_ms → start_ms ≤ end_ms →
        b ∉ (extractBbo bbuf start_ms end_ms).1 ∧
          b ∉ (extractBbo bbuf start_ms end_ms).2) ∧
      (∀ b : BboEntry, start_ms ≤ b.ts → b.ts ≤ end_ms →
        b ∉ (extractBbo bbuf start_ms end_ms).2)) := by
  constructor
  · refine ⟨?_, ?_, ?_, ?_⟩
    · intro t
      simp only [extractTrades, List.mem_filter, decide_eq_true_eq]
    · intro t
      simp only [extractTrades, List.mem_filter, decide_eq_true_eq, gt_iff_lt]
    · intro t hmem hold hse
      simp only [extractTrades, List.mem_filter, decide_eq_true_eq, gt_iff_lt,
        not_and]
      exact ⟨fun _ => by omega, fun _ => by omega⟩
    · intro t h1 h2
      simp only [extractTrades, List.mem_filter, decide_eq_true_eq, gt_iff_lt,
        not_and]
      exact fun _ => by omega
  · refine ⟨?_, ?_, ?_, ?_⟩
    · intro b
      simp only [extractBbo, List.mem_filter, decide_eq_true_eq]
    · intro b
      simp only [extractBbo, List.mem_filter, decide_eq_true_eq, gt_iff_lt]
    · intro b hmem hold hse
      simp only [extractBbo, List.mem_filter, decide_eq_true_eq, gt_iff_lt,
        not_and]
      exact ⟨fun _ => by omega, fun _ => by omega⟩
    · intro b h1 h2
      simp only [extractBbo, List.mem_filter, decide_eq_true_eq, gt_iff_lt,
        not_and]
      exact fun _ => by omega

/-- C6: whenever the streak is already at least 4 and no consolidation
watch is active at the start of a candle, `_run_trade_setup_logic` fires no
alert on that candle, whatever its HA color and metrics: the strict-entry
branch needs the post-update streak to equal exactly 4, and a green candle
moves it to at least 5 while a red one resets it to 0. -/
theorem C6_streak_beyond_four (last : Option CandleData) (s : SetupCounters)
    (d : CandleData) (h4 : 4 ≤ s.ha_green_streak)
    (h0 : s.consolidation_watch_countdown = 0) :
    (run_trade_setup_logic last s d).2 = none := by
  simp only [run_trade_setup_logic, h0]
  split_ifs <;> simp_all <;> omega

/-- C6 witness: a state with streak 5 and no watch fires no alert even on a
fully qualifying green candle. -/
theorem C6_streak_beyond_four_witness :
    (run_trade_setup_logic none
      { ha_green_streak := 5, consolidation_watch_countdown := 0,
        alert_cooldown := 0 } greenRecord).2 = none :=
  C6_streak_beyond_four none _ greenRecord (by norm_num) rfl

/-- One step of `_run_trade_setup_logic` keeps the counters in their
configured ranges. -/
theorem setup_step_bounds (last : Option CandleData) (s : SetupCounters)
    (d : CandleData)
    (h : 0 ≤ s.alert_cooldown ∧ s.alert_cooldown ≤ 5 ∧
      0 ≤ s.consolidation_watch_countdown ∧ s.consolidation_watch_countdown ≤ 3 ∧
      0 ≤ s.ha_green_streak) :
    0 ≤ (run_trade_setup_logic last s d).1.alert_cooldown ∧
      (run_trade_setup_logic last s d).1.alert_cooldown ≤ 5 ∧
      0 ≤ (run_trade_setup_logic last s d).1.consolidation_watch_countdown ∧
      (run_trade_setup_logic last s d).1.consolidation_watch_countdown ≤ 3 ∧
      0 ≤ (run_trade_setup_logic last s d).1.ha_green_streak := by
  simp only [run_trade_setup_logic, ALERT_COOLDOWN_PERIOD,
    CONSOLIDATION_WATCH_PERIOD]
  split_ifs <;> simp_all <;> omega

/-- C10: every state reachable from the fresh counters (all zero) by any
sequence of per-candle transitions keeps `alert_cooldown` in `[0, 5]`,
`consolidation_watch_countdown` in `[0, 3]`, and `ha_green_streak`
non-negative. -/
theorem C10_counter_bounds (last : Option CandleData) (ds : List CandleData) :
    0 ≤ (runSetupCounters last initialCounters ds).alert_cooldown ∧
      (runSetupCounters last initialCounters ds).alert_cooldown ≤
        ALERT_COOLDOWN_PERIOD ∧
      0 ≤ (runSetupCounters last initialCounters ds).consolidation_watch_countdown ∧
      (runSetupCounters last initialCounters ds).consolidation_watch_countdown ≤
        CONSOLIDATION_WATCH_PERIOD ∧
      0 ≤ (runSetupCounters last initialCounters ds).ha_green_streak := by
  simp only [ALERT_COOLDOWN_PERIOD, CONSOLIDATION_WATCH_PERIOD]
  suffices h : ∀ (ds : List CandleData) (last : Option CandleData)
      (s : SetupCounters),
      0 ≤ s.alert_cooldown ∧ s.alert_cooldown ≤ 5 ∧
        0 ≤ s.consolidation_watch_countdown ∧
        s.consolidation_watch_countdown ≤ 3 ∧ 0 ≤ s.ha_green_streak →
      0 ≤ (runSetupCounters last s ds).alert_cooldown ∧
        (runSetupCounters last s ds).alert_cooldown ≤ 5 ∧
        0 ≤ (runSetupCounters last s ds).consolidation_watch_countdown ∧
        (runSetupCounters last s ds).consolidation_watch_countdown ≤ 3 ∧
        0 ≤ (runSetupCounters last s ds).ha_green_streak by
    exact h ds last initialCounters (by simp [initialCounters])
  intro ds
  induction ds with
  | nil => intro last s hs; simpa [runSetupCounters] using hs
  | cons d ds ih =>
    intro last s hs
    simpa [runSetupCounters] using ih (some d) _ (setup_step_bounds last s d hs)

/-- Whenever `_run_trade_setup_logic` fires an alert, it leaves the
cooldown at `ALERT_COOLDOWN_PERIOD`. -/
theorem setup_fire_sets_cooldown (last : Option CandleData) (s : SetupCounters)
    (d : CandleData) (h : (run_trade_setup_logic last s d).2.isSome) :
    (run_trade_setup_logic last s d).1.alert_cooldown = ALERT_COOLDOWN_PERIOD := by
  simp only [run_trade_setup_logic] at h ⊢
  split_ifs at h ⊢ <;> simp_all

/-- A step taken with cooldown at least 2 fires nothing (the decremented
cooldown is still positive) and just counts the cooldown down by one. -/
theorem setup_cooldown_skip (last : Option CandleData) (s : SetupCounters)
    (d : CandleData) (h : 2 ≤ s.alert_cooldown) :
    (run_trade_setup_logic last s d).2 = none ∧
      (run_trade_setup_logic last s d).1.alert_cooldown = s.alert_cooldown - 1 := by
  simp only [run_trade_setup_logic]
  split_ifs <;> simp_all <;> omega

/-- No alert fires along any record sequence strictly shorter than the
starting cooldown. -/
theorem setup_cooldown_suppresses (ds : List CandleData) :
    ∀ (last : Option CandleData) (s : SetupCounters),
      (ds.length : Int) + 1 ≤ s.alert_cooldown →
      ∀ a ∈ runSetupAlerts last s ds, a = none := by
  induction ds with
  | nil => intro last s _ a ha; simp [runSetupAlerts] at ha
  | cons d ds ih =>
    intro last s hlen a ha
    have hskip := setup_cooldown_skip last s d (by simp at hlen; omega)
    simp only [runSetupAlerts, List.mem_cons] at ha
    rcases ha with rfl | ha
    · exact hskip.1
    · refine ih (some d) _ ?_ a ha
      rw [hskip.2]
      simp only [List.length_cons] at hlen
      push_cast at hlen ⊢
      omega

/-- C1 (amended): whenever an alert fires, the cooldown is set to 5; no
alert fires on a candle whose cooldown at the start of processing is at
least 2 (i.e. is still positive after the initial decrement); consequently
after any alert the next 4 candles produce no alert regardless of their HA
color and metrics.  (Because the decrement at the top of
`_run_trade_setup_logic` runs before the skip test, detection resumes on
the 5th candle after an alert, not the 6th.) -/
theorem C1_cooldown_amended :
    (∀ (last : Option CandleData) (s : SetupCounters) (d : CandleData),
        (run_trade_setup_logic last s d).2.isSome →
        (run_trade_setup_logic last s d).1.alert_cooldown =
          ALERT_COOLDOWN_PERIOD) ∧
    (∀ (last : Option CandleData) (s : SetupCounters) (d : CandleData),
        2 ≤ s.alert_cooldown → (run_trade_setup_logic last s d).2 = none) ∧
    (∀ (last : Option CandleData) (s : SetupCounters) (d : CandleData)
        (ds : List CandleData),
        (run_trade_setup_logic last s d).2.isSome → ds.length ≤ 4 →
        ∀ a ∈ runSetupAlerts (some d) (run_trade_setup_logic last s d).1 ds,
          a = none) := by
  refine ⟨setup_fire_sets_cooldown, fun last s d h =>
    (setup_cooldown_skip last s d h).1, ?_⟩
  intro last s d ds hfire hlen a ha
  refine setup_cooldown_suppresses ds (some d) _ ?_ a ha
  rw [setup_fire_sets_cooldown last s d hfire]
  simp only [ALERT_COOLDOWN_PERIOD]
  omega

/-- C1 counterexample: from a fresh detector, four qualifying green candles
fire a strict-entry alert on candle 4 (index 3); a red candle then resets
the streak, four more qualifying green candles rebuild it, and a second
alert fires on candle 9 (index 8) — the 5th candle after the first alert,
inside the claimed 5-candle silent window.  The cooldown at the start of
that 9th candle is still 1 > 0, so the two alerts also have
`alert_cooldown > 0` at points between them. -/
theorem C1_counterexample :
    runSetupAlerts none initialCounters
        [greenRecord, greenRecord, greenRecord, greenRecord, redRecord,
          greenRecord, greenRecord, greenRecord, greenRecord] =
      [none, none, none, some AlertKind.strictEntry, none, none, none, none,
        some AlertKind.strictEntry] ∧
    (runSetupCounters none initialCounters
        [greenRecord, greenRecord, greenRecord, greenRecord, redRecord,
          greenRecord, greenRecord, greenRecord]).alert_cooldown = 1 := by
  constructor
  · norm_num [runSetupAlerts, run_trade_setup_logic, check_entry_conditions,
      initialCounters, greenRecord, redRecord, RED_ZONE_THRESHOLD,
      GREEN_ZONE_THRESHOLD, ALERT_COOLDOWN_PERIOD, CONSOLIDATION_WATCH_PERIOD,
      red_ne_green, green_ne_red]
  · norm_num [runSetupCounters, run_trade_setup_logic, check_entry_conditions,
      initialCounters, greenRecord, redRecord, RED_ZONE_THRESHOLD,
      GREEN_ZONE_THRESHOLD, ALERT_COOLDOWN_PERIOD, CONSOLIDATION_WATCH_PERIOD,
      red_ne_green, green_ne_red]

/-- C9: a confirmed candle whose `start` equals the last-processed start is
a complete no-op for both trackers: the state is returned unchanged and no
per-candle record is produced. -/
theorem C9_dedup_noop (s : TrackerState) (es : ExhaustState) (c : Candle)
    (rest1 rest2 : List Candle) (h1 : c.confirm = true)
    (h2 : s.last_kline_start_time = some c.start)
    (h3 : es.last_kline_start_time = some c.start) :
    handle_kline_message s { data := c :: rest1 } = .ok (s, none) ∧
      exhaust_handle_kline_message es { data := c :: rest2 } = .ok (es, none) := by
  constructor
  · simp [handle_kline_message, h2]
  · simp [exhaust_handle_kline_message, h3]

/-- C9 witness: the dedup no-op at a concrete repeated candle. -/
theorem C9_dedup_noop_witness :
    handle_kline_message
        { initialState with last_kline_start_time := some 0 }
        { data := [sampleCandle] } =
      .ok ({ initialState with last_kline_start_time := some 0 }, none) ∧
    exhaust_handle_kline_message
        { exhaustInitial 100 with last_kline_start_time := some 0 }
        { data := [sampleCandle] } =
      .ok ({ exhaustInitial 100 with last_kline_start_time := some 0 }, none) :=
  C9_dedup_noop _ _ sampleCandle [] [] rfl rfl rfl

/-- First-candle case of the HA transform: `ha_close = (open+high+low+close)/4`;
`ha_open = (open+close)/2` on the first candle and
`(previous_ha_open + previous_ha_close)/2` afterwards; the color is Green
exactly when `ha_close > ha_open` (equality classifies as Red); and the HA
state is updated unconditionally — also when processing later raises on a
bad buffered trade (the `.error` case), and whatever the downstream setup
checks decide (the `.ok` case for every alert outcome). -/
theorem ha_transform_first (s : TrackerState) (c : Candle)
    (hfst : s.last_ha_open = none) :
    (∀ s4 out alert, process_candle_data s c = .ok (s4, out, alert) →
      s4.last_ha_close =
          some ((c.open_price + c.high_price + c.low_price + c.close_price) / 4) ∧
      s4.last_ha_open = some ((c.open_price + c.close_price) / 2) ∧
      (out.HA_color = "Green" ↔
          (c.open_price + c.close_price) / 2 <
            (c.open_price + c.high_price + c.low_price + c.close_price) / 4) ∧
      ((c.open_price + c.close_price) / 2 =
          (c.open_price + c.high_price + c.low_price + c.close_price) / 4 →
        out.HA_color = "Red")) ∧
    (∀ e, process_candle_data s c = .error e →
      e.last_ha_close =
          some ((c.open_price + c.high_price + c.low_price + c.close_price) / 4) ∧
      e.last_ha_open = some ((c.open_price + c.close_price) / 2)) := by
  constructor
  · intro s4 out alert h
    simp only [process_candle_data, hfst, if_pos] at h
    split at h
    · simp at h
    · split at h
      · simp at h
      · simp only [Except.ok.injEq, Prod.mk.injEq] at h
        obtain ⟨h1, h2, -⟩ := h
        subst h1 h2
        refine ⟨rfl, rfl, ?_, ?_⟩
        · by_cases hgt : (c.open_price + c.close_price) / 2 <
              (c.open_price + c.high_price + c.low_price + c.close_price) / 4
          · simp [hgt]
          · simp [gt_iff_lt, hgt, red_ne_green]
        · intro heq
          simp [heq]
  · intro e h
    simp only [process_candle_data, hfst, if_pos] at h
    split at h
    · simp only [Except.error.injEq] at h
      subst h
      exact ⟨rfl, rfl⟩
    · split at h
      · simp only [Except.error.injEq] at h
        subst h
        exact ⟨rfl, rfl⟩
      · simp at h

/-- Recursive case of the HA transform: when a previous HA state exists,
`ha_open = (previous_ha_open + previous_ha_close) / 2`, again updated
unconditionally in both the `.ok` and the `.error` outcome. -/
theorem ha_transform_recursive (s : TrackerState) (c : Candle) (po pc : ℚ)
    (hpo : s.last_ha_open = some po) (hpc : s.last_ha_close = some pc) :
    (∀ s4 out alert, process_candle_data s c = .ok (s4, out, alert) →
      s4.last_ha_open = some ((po + pc) / 2) ∧
      s4.last_ha_close =
          some ((c.open_price + c.high_price + c.low_price + c.close_price) / 4) ∧
      (out.HA_color = "Green" ↔
          (po + pc) / 2 <
            (c.open_price + c.high_price + c.low_price + c.close_price) / 4)) ∧
    (∀ e, process_candle_data s c = .error e →
      e.last_ha_open = some ((po + pc) / 2) ∧
      e.last_ha_close =
          some ((c.open_price + c.high_price + c.low_price + c.close_price) / 4)) := by
  constructor
  · intro s4 out alert h
    simp only [process_candle_data, hpo, hpc, Option.getD_some,
      reduceCtorEq, if_neg, if_false] at h
    split at h
    · simp at h
    · split at h
      · simp at h
      · simp only [Except.ok.injEq, Prod.mk.injEq] at h
        obtain ⟨h1, h2, -⟩ := h
        subst h1 h2
        refine ⟨rfl, rfl, ?_⟩
        by_cases hgt : (po + pc) / 2 <
            (c.open_price + c.high_price + c.low_price + c.close_price) / 4
        · simp [hgt]
        · simp [gt_iff_lt, hgt, red_ne_green]
  · intro e h
    simp only [process_candle_data, hpo, hpc, Option.getD_some,
      reduceCtorEq, if_neg, if_false] at h
    split at h
    · simp only [Except.error.injEq] at h
      subst h
      exact ⟨rfl, rfl⟩
    · split at h
      · simp only [Except.error.injEq] at h
        subst h
        exact ⟨rfl, rfl⟩
      · simp at h

/-- C5: for every processed raw candle, `ha_close = (open+high+low+close)/4`;
`ha_open = (open+close)/2` when no previous HA state exists, otherwise
`(previous_ha_open + previous_ha_close)/2`; the color is Green exactly when
`ha_close > ha_open` (so equality classifies as Red); and the HA state is
updated unconditionally on every processed candle — in the `.ok` case for
every downstream outcome, and even in the `.error` case where trade parsing
raises afterwards. -/
theorem C5_heikin_ashi (s : TrackerState) (c : Candle) :
    (s.last_ha_open = none →
      (∀ s4 out alert, process_candle_data s c = .ok (s4, out, alert) →
        s4.last_ha_close =
            some ((c.open_price + c.high_price + c.low_price + c.close_price) / 4) ∧
        s4.last_ha_open = some ((c.open_price + c.close_price) / 2) ∧
        (out.HA_color = "Green" ↔
            (c.open_price + c.close_price) / 2 <
              (c.open_price + c.high_price + c.low_price + c.close_price) / 4) ∧
        ((c.open_price + c.close_price) / 2 =
            (c.open_price + c.high_price + c.low_price + c.close_price) / 4 →
          out.HA_color = "Red")) ∧
      (∀ e, process_candle_data s c = .error e →
        e.last_ha_close =
            some ((c.open_price + c.high_price + c.low_price + c.close_price) / 4) ∧
        e.last_ha_open = some ((c.open_price + c.close_price) / 2))) ∧
    (∀ po pc, s.last_ha_open = some po → s.last_ha_close = some pc →
      (∀ s4 out alert, process_candle_data s c = .ok (s4, out, alert) →
        s4.last_ha_open = some ((po + pc) / 2) ∧
        s4.last_ha_close =
            some ((c.open_price + c.high_price + c.low_price + c.close_price) / 4) ∧
        (out.HA_color = "Green" ↔
            (po + pc) / 2 <
              (c.open_price + c.high_price + c.low_price + c.close_price) / 4)) ∧
      (∀ e, process_candle_data s c = .error e →
        e.last_ha_open = some ((po + pc) / 2) ∧
        e.last_ha_close =
            some ((c.open_price + c.high_price + c.low_price + c.close_price) / 4))) :=
  ⟨fun hfst => ha_transform_first s c hfst,
   fun po pc hpo hpc => ha_transform_recursive s c po pc hpo hpc⟩

/-- C2 (amended): when processing a confirmed candle raises partway —
concretely, on an unparsable buffered trade volume — the Setup counters and
the previous-record slot of the HA tracker are not mutated, and the CVD
tracker's state is not mutated at all (its raise happens before the CVD
update and before its buffer cleanup).  The HA state and the drained
buffers, however, are already updated before trade parsing (see the
counterexample), so only the CVD and Setup state advance strictly on
fully-parsed candles. -/
theorem C2_error_isolation_amended :
    (∀ (s : TrackerState) (c : Candle) (e : TrackerState),
        process_candle_data s c = .error e →
        e.ha_green_streak = s.ha_green_streak ∧
        e.consolidation_watch_countdown = s.consolidation_watch_countdown ∧
        e.alert_cooldown = s.alert_cooldown ∧
        e.last_candle_data = s.last_candle_data) ∧
    (∀ (es : ExhaustState) (c : Candle) (e : ExhaustState),
        exhaust_process_candle_data es c = .error e → e = es) := by
  constructor
  · intro s c e h
    simp only [process_candle_data] at h
    split at h
    · simp only [Except.error.injEq] at h
      subst h
      exact ⟨rfl, rfl, rfl, rfl⟩
    · split at h
      · simp only [Except.error.injEq] at h
        subst h
        exact ⟨rfl, rfl, rfl, rfl⟩
      · simp at h
  · intro es c e h
    simp only [exhaust_process_candle_data] at h
    split at h
    · simp only [Except.error.injEq] at h
      exact h.symm
    · simp at h

/-- C2 counterexample: a fully-parsed confirmed candle over a buffer holding
one in-window Buy trade with an unparsable volume makes
`process_candle_data` raise — yet the HA state HAS been mutated for that
candle (from `none` to `some 100` / `some 102`) and the trade was drained
from the buffer, contradicting the claim that none of the accumulated state
is mutated when processing raises partway. -/
theorem C2_counterexample :
    process_candle_data
        { initialState with trade_buffer := [{ T := 500, S := "Buy", v := none }] }
        sampleCandle =
      .error { initialState with last_ha_open := some 100, last_ha_close := some 102 } ∧
    ({ initialState with
        trade_buffer := [{ T := 500, S := "Buy", v := none }] } :
      TrackerState).last_ha_open = none := by
  constructor
  · norm_num [process_candle_data, initialState, sampleCandle, extractTrades,
      extractBbo, List.filter, List.any]
  · rfl

/-- C3 (amended): rounding happens when the per-candle record is built —
the HA state carried into the next candle is the full-precision value, and
the logged record holds the 4-5 place rounded values — but the Setup
Detector's entry-condition check runs on that rounded record, not on the
full-precision internals: the alert decision equals
`_run_trade_setup_logic` applied to the record whose `agg_ratio` and
`avg_bbo_imba` are the `pyRound _ 4` values. -/
theorem C3_rounding_amended (s : TrackerState) (c : Candle)
    (s4 : TrackerState) (out : CandleData) (alert : Option AlertKind)
    (h : process_candle_data s c = .ok (s4, out, alert)) :
    s4.last_ha_close =
        some ((c.open_price + c.high_price + c.low_price + c.close_price) / 4) ∧
    out.HA_close =
        pyRound ((c.open_price + c.high_price + c.low_price + c.close_price) / 4) 5 ∧
    out.agg_ratio =
        pyRound
          (if ((List.filter (fun t => t.S == "Buy")
                  (extractTrades s.trade_buffer c.start c.endms).1).map
                (fun t => t.v.getD 0)).sum +
              ((List.filter (fun t => t.S == "Sell")
                  (extractTrades s.trade_buffer c.start c.endms).1).map
                (fun t => t.v.getD 0)).sum > 0 then
            ((List.filter (fun t => t.S == "Buy")
                (extractTrades s.trade_buffer c.start c.endms).1).map
              (fun t => t.v.getD 0)).sum /
              (((List.filter (fun t => t.S == "Buy")
                  (extractTrades s.trade_buffer c.start c.endms).1).map
                (fun t => t.v.getD 0)).sum +
                ((List.filter (fun t => t.S == "Sell")
                    (extractTrades s.trade_buffer c.start c.endms).1).map
                  (fun t => t.v.getD 0)).sum)
          else 1/2) 4 ∧
    out.avg_bbo_imba =
        pyRound
          (if (extractBbo s.bbo_buffer c.start c.endms).1.isEmpty then 1/2
           else pymean ((extractBbo s.bbo_buffer c.start c.endms).1.map
              (fun b => b.imbalance))) 4 ∧
    alert =
      (run_trade_setup_logic s.last_candle_data
        { ha_green_streak := s.ha_green_streak
          consolidation_watch_countdown := s.consolidation_watch_countdown
          alert_cooldown := s.alert_cooldown } out).2 := by
  simp only [process_candle_data] at h
  split at h
  · simp at h
  · split at h
    · simp at h
    · simp only [Except.ok.injEq, Prod.mk.injEq] at h
      obtain ⟨h1, h2, h3⟩ := h
      subst h1 h2 h3
      exact ⟨rfl, rfl, rfl, rfl, rfl⟩

/-- C3 witness: the amended theorem applied to a fresh tracker and the
sample candle (empty window: both raw metrics default to 1/2 and round to
1/2; the record's HA close is the rounded 102). -/
theorem C3_rounding_amended_witness :
    sampleRecord.HA_close =
      pyRound ((sampleCandle.open_price + sampleCandle.high_price +
        sampleCandle.low_price + sampleCandle.close_price) / 4) 5 :=
  (C3_rounding_amended initialState sampleCandle sampleOkState sampleRecord
    none (by
      have hr1 : pyRound (100 : ℚ) 5 = 100 := by norm_num [pyRound, pyRoundInt]
      have hr2 : pyRound (102 : ℚ) 5 = 102 := by norm_num [pyRound, pyRoundInt]
      have hr3 : pyRound ((1:ℚ)/2) 4 = 1/2 := by norm_num [pyRound, pyRoundInt]
      norm_num [process_candle_data, initialState, sampleCandle, sampleOkState,
        sampleRecord, extractTrades, extractBbo, run_trade_setup_logic,
        check_entry_conditions, RED_ZONE_THRESHOLD, GREEN_ZONE_THRESHOLD,
        hr1, hr2, hr3, red_ne_green, green_ne_red])).2.1

/-- C3 counterexample: a candle whose full-precision aggression ratio is
0.34996 — strictly below the 0.35 RED_ZONE threshold — still fires a
strict-entry alert, because the detector receives the record value rounded
to 4 places (0.35): the entry-condition check compares rounded presentation
values, not the full-precision internals. -/
theorem C3_counterexample :
    (process_candle_data
        { initialState with
            ha_green_streak := 3
            trade_buffer := [{ T := 500, S := "Buy", v := some (34996/100000) },
              { T := 600, S := "Sell", v := some (65004/100000) }]
            bbo_buffer := [{ ts := 700, imbalance := 6/10 }] }
        sampleCandle).toOption.map (fun r => (r.2.1.agg_ratio, r.2.2)) =
      some (35/100, some AlertKind.strictEntry) ∧
    (34996 : ℚ)/100000 < RED_ZONE_THRESHOLD := by
  constructor
  · have hq1 : pyRound ((8749:ℚ)/25000) 4 = 7/20 := by
      norm_num [pyRound, pyRoundInt]
    have hq2 : pyRound ((3:ℚ)/5) 4 = 3/5 := by norm_num [pyRound, pyRoundInt]
    have hr1 : pyRound (100 : ℚ) 5 = 100 := by norm_num [pyRound, pyRoundInt]
    have hr2 : pyRound (102 : ℚ) 5 = 102 := by norm_num [pyRound, pyRoundInt]
    norm_num [process_candle_data, initialState, sampleCandle, extractTrades,
      extractBbo, pymean, run_trade_setup_logic, check_entry_conditions,
      RED_ZONE_THRESHOLD, GREEN_ZONE_THRESHOLD, ALERT_COOLDOWN_PERIOD,
      hq1, hq2, hr1, hr2, red_ne_green, green_ne_red, sell_ne_buy,
      buy_ne_sell, beq_sides.1, beq_sides.2.1, beq_sides.2.2.1,
      beq_sides.2.2.2, Except.toOption, Option.map, reduceCtorEq]
    rfl
  · norm_num [RED_ZONE_THRESHOLD]

/-- A raise in the CVD tracker's `process_candle_data` leaves its state
unchanged (the raise happens before any mutation). -/
theorem exhaust_error_state (s : ExhaustState) (c : Candle) (e : ExhaustState)
    (h : exhaust_process_candle_data s c = .error e) : e = s := by
  simp only [exhaust_process_candle_data] at h
  split at h
  · simp only [Except.error.injEq] at h
    exact h.symm
  · simp at h

/-- A successful CVD step adds exactly the returned `volume_delta` to the
cumulative sum, drains the buffer by the window, and keeps the history
bound. -/
theorem exhaust_step_ok (s : ExhaustState) (c : Candle) (s2 : ExhaustState)
    (d : ℚ) (h : exhaust_process_candle_data s c = .ok (s2, d)) :
    s2.cumulative_volume_delta = s.cumulative_volume_delta + d ∧
    s2.trade_buffer = (extractTrades s.trade_buffer c.start c.endms).2 ∧
    s2.cvd_zscore_period = s.cvd_zscore_period := by
  simp only [exhaust_process_candle_data] at h
  split at h
  · simp at h
  · simp only [Except.ok.injEq, Prod.mk.injEq] at h
    obtain ⟨h1, h2⟩ := h
    subst h1 h2
    exact ⟨rfl, rfl, rfl⟩

/-- Along any candle sequence the CVD trace is independent of the z-score
history and its bound. -/
theorem exhaustRun_congr (cs : List Candle) :
    ∀ (s t : ExhaustState), s.trade_buffer = t.trade_buffer →
      s.cumulative_volume_delta = t.cumulative_volume_delta →
      (exhaustRun s cs).2 = (exhaustRun t cs).2 ∧
      (exhaustRun s cs).1.cumulative_volume_delta =
        (exhaustRun t cs).1.cumulative_volume_delta := by
  induction cs with
  | nil => intro s t hb hc; exact ⟨rfl, hc⟩
  | cons c cs ih =>
    intro s t hb hc
    have hcum2 : ∀ D : ℚ, s.cumulative_volume_delta + D =
        t.cumulative_volume_delta + D := fun D => by rw [hc]
    simp only [exhaustRun, exhaust_process_candle_data]
    rw [← hb]
    split_ifs with hcond
    · exact ⟨rfl, hc⟩
    · dsimp only
      have key := ih
        { s with
            trade_buffer := (extractTrades s.trade_buffer c.start c.endms).2
            cumulative_volume_delta := s.cumulative_volume_delta +
              ((List.map (fun u => u.v.getD 0)
                  (List.filter (fun u => u.S == "Buy")
                    (extractTrades s.trade_buffer c.start c.endms).1)).sum -
                (List.map (fun u => u.v.getD 0)
                  (List.filter (fun u => u.S == "Sell")
                    (extractTrades s.trade_buffer c.start c.endms).1)).sum)
            cvd_history := dequeAppend s.cvd_zscore_period s.cvd_history
              (s.cumulative_volume_delta +
                ((List.map (fun u => u.v.getD 0)
                  (List.filter (fun u => u.S == "Buy")
                    (extractTrades s.trade_buffer c.start c.endms).1)).sum -
                (List.map (fun u => u.v.getD 0)
                  (List.filter (fun u => u.S == "Sell")
                    (extractTrades s.trade_buffer c.start c.endms).1)).sum)) }
        { t with
            trade_buffer := (extractTrades s.trade_buffer c.start c.endms).2
            cumulative_volume_delta := t.cumulative_volume_delta +
              ((List.map (fun u => u.v.getD 0)
                  (List.filter (fun u => u.S == "Buy")
                    (extractTrades s.trade_buffer c.start c.endms).1)).sum -
                (List.map (fun u => u.v.getD 0)
                  (List.filter (fun u => u.S == "Sell")
                    (extractTrades s.trade_buffer c.start c.endms).1)).sum)
            cvd_history := dequeAppend t.cvd_zscore_period t.cvd_history
              (t.cumulative_volume_delta +
                ((List.map (fun u => u.v.getD 0)
                  (List.filter (fun u => u.S == "Buy")
                    (extractTrades s.trade_buffer c.start c.endms).1)).sum -
                (List.map (fun u => u.v.getD 0)
                  (List.filter (fun u => u.S == "Sell")
                    (extractTrades s.trade_buffer c.start c.endms).1)).sum)) }
        rfl (hcum2 _)
      constructor
      · rw [key.1]
        simp only [List.cons.injEq, Prod.mk.injEq]
        exact ⟨⟨trivial, hcum2 _⟩, trivial⟩
      · exact key.2

/-- The cumulative delta after any run equals the start value plus the sum
of the emitted per-candle deltas, and each emitted cumulative value is the
start value plus the prefix sum of the deltas up to and including it. -/
theorem exhaustRun_trace (cs : List Candle) :
    ∀ s : ExhaustState,
      (exhaustRun s cs).1.cumulative_volume_delta =
        s.cumulative_volume_delta + ((exhaustRun s cs).2.map Prod.fst).sum ∧
      (∀ (k : ℕ) (p : ℚ × ℚ), (exhaustRun s cs).2.get? k = some p →
        p.2 = s.cumulative_volume_delta +
          (((exhaustRun s cs).2.map Prod.fst).take (k+1)).sum) := by
  induction cs with
  | nil =>
    intro s
    constructor
    · simp [exhaustRun]
    · intro k p hk
      simp [exhaustRun] at hk
  | cons c cs ih =>
    intro s
    simp only [exhaustRun]
    cases h : exhaust_process_candle_data s c with
    | error e =>
      have he : e = s := exhaust_error_state s c e h
      subst he
      constructor
      · simp
      · intro k p hk
        simp at hk
    | ok r =>
      obtain ⟨s2, d⟩ := r
      have hstep := exhaust_step_ok s c s2 d h
      constructor
      · simp only [List.map_cons, List.sum_cons]
        rw [(ih s2).1, hstep.1]
        ring
      · intro k p hk
        cases k with
        | zero =>
          simp only [List.get?] at hk
          cases hk
          simp only [List.map_cons, List.take_succ_cons, List.take_zero,
            List.sum_cons, List.sum_nil]
          rw [hstep.1]
          ring
        | succ k =>
          simp only [List.get?] at hk
          have := (ih s2).2 k p hk
          rw [this, hstep.1]
          simp only [List.map_cons, List.take_succ_cons, List.sum_cons]
          ring

/-- C8: for every run of the CVD tracker, the cumulative volume delta after
`k` processed candles equals the tracker-creation value plus the sum of the
per-candle `volume_delta` values of candles `1..k` (both for the final state
and for every emitted intermediate value), and the whole trace is
independent of the bounded z-score history and its configured length `N`. -/
theorem C8_cvd_running_sum :
    (∀ (s : ExhaustState) (cs : List Candle),
        (exhaustRun s cs).1.cumulative_volume_delta =
          s.cumulative_volume_delta + ((exhaustRun s cs).2.map Prod.fst).sum) ∧
    (∀ (s : ExhaustState) (cs : List Candle) (k : ℕ) (p : ℚ × ℚ),
        (exhaustRun s cs).2.get? k = some p →
        p.2 = s.cumulative_volume_delta +
          (((exhaustRun s cs).2.map Prod.fst).take (k+1)).sum) ∧
    (∀ (s : ExhaustState) (h2 : List ℚ) (n2 : ℕ) (cs : List Candle),
        (exhaustRun { s with cvd_history := h2, cvd_zscore_period := n2 } cs).2 =
          (exhaustRun s cs).2 ∧
        (exhaustRun
            { s with cvd_history := h2, cvd_zscore_period := n2 }
            cs).1.cumulative_volume_delta =
          (exhaustRun s cs).1.cumulative_volume_delta) := by
  refine ⟨fun s cs => (exhaustRun_trace cs s).1,
    fun s cs => (exhaustRun_trace cs s).2, fun s h2 n2 cs => ?_⟩
  exact exhaustRun_congr cs { s with cvd_history := h2, cvd_zscore_period := n2 }
    s rfl rfl

end TradeFlow